import Mathlib

/-!
Verification of the Task_Tracker repository: a shallow embedding of
`app/main.py` and `app/schemas.py` (a FastAPI todo service with
registration, login, bearer-token authentication and per-user CRUD on
todo items), together with theorems settling the specification claims.

The database session is embedded as an explicit `DB` state (lists of
user and todo rows plus autoincrement counters); each route handler is
a pure function from its inputs and the current `DB` to a result and
the next `DB`.  Rows mutated through the ORM are replaced in place in
the list.  The modules `app/auth.py`, `app/models.py` and
`app/database.py` are not part of the provided sources; the functions
taken from them (`hash_password`, `verify_password`,
`create_access_token`, `decode_token`, the column defaults of the
`Todo` model) are modelled from the spec and marked as such in their
doc comments.
-/

namespace TaskTracker

/-- A row of the Users table: `Users(id PK, username UNIQUE, hashed_password)`
(from `models.User` as described by the persisted schema; `models.py` is not
in the provided sources). -/
structure User where
  id : Nat
  username : String
  hashed_password : String
deriving Repr, DecidableEq

/-- A row of the Tasks table:
`Tasks(id PK, title, description NULLABLE, completed BOOL, owner_id FK)`.
Modelled from the spec: `models.py` is not in the provided sources; the
spec gives the persisted schema and says `completed` defaults to false. -/
structure Todo where
  id : Nat
  title : String
  description : Option String
  completed : Bool
  owner_id : Nat
deriving Repr, DecidableEq

/-- The database state threaded through every handler: the two tables
plus the autoincrement counters for the primary keys. -/
structure DB where
  users : List User
  todos : List Todo
  next_user_id : Nat
  next_todo_id : Nat
deriving Repr, DecidableEq

/-- A structured HTTP error, as raised by `HTTPException(status_code, detail)`. -/
structure HTTPException where
  status_code : Nat
  detail : String
deriving Repr, DecidableEq

/-- One JSON field of a request body, distinguishing an absent key, an
explicit `null`, and a present value — the distinction pydantic sees
before validation. -/
inductive JsonField (α : Type) where
  | absent : JsonField α
  | null : JsonField α
  | val : α → JsonField α
deriving Repr, DecidableEq

/-- Pydantic validation of a field declared `x: T | None = None`:
an absent key and an explicit `null` both become `None`; a present
value is kept. -/
def JsonField.toOption {α : Type} : JsonField α → Option α
  | .absent => none
  | .null => none
  | .val a => some a

/-- `schemas.UserCreate`: `username: str`, `password: str`. -/
structure UserCreate where
  username : String
  password : String
deriving Repr, DecidableEq

/-- `schemas.TodoCreate`: `title: str`, `description: str | None = None`. -/
structure TodoCreate where
  title : String
  description : Option String := none
deriving Repr, DecidableEq

/-- Pydantic validation of a `TodoCreate` request body.  `title: str` is
required and must be a string (an absent key or an explicit `null` is
rejected); any string, including the empty string, passes.
`description` is optional. -/
def parseTodoCreate (title : JsonField String) (description : JsonField String) :
    Except String TodoCreate :=
  match title with
  | .absent => .error "Field required"
  | .null => .error "Input should be a valid string"
  | .val t => .ok { title := t, description := description.toOption }

/-- `schemas.TodoUpdate`: `title: str | None = None`,
`description: str | None = None`, `completed: bool | None = None`. -/
structure TodoUpdate where
  title : Option String := none
  description : Option String := none
  completed : Option Bool := none
deriving Repr, DecidableEq

/-- A raw JSON body for `PUT /todos/{id}`, before pydantic validation. -/
structure TodoUpdateBody where
  title : JsonField String
  description : JsonField String
  completed : JsonField Bool
deriving Repr, DecidableEq

/-- Pydantic validation of a `TodoUpdate` body: every field is optional
with default `None`, so absent and explicit `null` both validate to `None`. -/
def parseTodoUpdate (b : TodoUpdateBody) : TodoUpdate :=
  { title := b.title.toOption
    description := b.description.toOption
    completed := b.completed.toOption }

/-- Rewrite every explicit `null` of a body into an absent key. -/
def TodoUpdateBody.dropNulls (b : TodoUpdateBody) : TodoUpdateBody :=
  { title := match b.title with | .null => .absent | x => x
    description := match b.description with | .null => .absent | x => x
    completed := match b.completed with | .null => .absent | x => x }

/-- Modelled from the spec: `auth.hash_password` (`app/auth.py` is not in
the provided sources).  The spec requires a one-way salted digest whose
output is stored in place of the plaintext; the model tags the input so
that `verify_password` recognises exactly the hashed plaintext and the
stored value is never the plaintext itself. -/
def hash_password (plaintext : String) : String :=
  "bcrypt$" ++ plaintext

/-- Modelled from the spec: `auth.verify_password` (`app/auth.py` is not
in the provided sources) — checks a plaintext against a stored hash. -/
def verify_password (plaintext hashed : String) : Bool :=
  hashed == hash_password plaintext

/-- Modelled from the spec: the process-wide token-signing secret. -/
def SECRET_KEY : String := "process-wide-secret"

/-- Modelled from the spec: the signature over a token claim set,
computed with the process-wide secret key. -/
def signClaims (sub : String) (exp : Nat) : String :=
  SECRET_KEY ++ "#" ++ sub ++ "#" ++ toString exp

/-- A signed bearer token: subject username, absolute expiry, signature.
Modelled from the spec (`app/auth.py` is not in the provided sources). -/
structure TokenData where
  sub : String
  exp : Nat
  sig : String
deriving Repr, DecidableEq

/-- Modelled from the spec: `auth.create_access_token` — issues a token
for a subject with a fixed lifetime from `now`, signed with the
process-wide secret. -/
def create_access_token (sub : String) (now : Nat) (lifetime : Nat := 30 * 60) :
    TokenData :=
  { sub := sub, exp := now + lifetime, sig := signClaims sub (now + lifetime) }

/-- Modelled from the spec: `auth.decode_token` — verification fails
with 401 if the signature is invalid (which also covers malformed
tokens) or the expiry timestamp has passed; on success it returns the
subject username.  Purely computational, no store access. -/
def decode_token (t : TokenData) (now : Nat) : Except HTTPException String :=
  if t.sig ≠ signClaims t.sub t.exp then
    .error { status_code := 401, detail := "Invalid token" }
  else if t.exp < now then
    .error { status_code := 401, detail := "Token expired" }
  else
    .ok t.sub

/-- `db.query(models.User).filter(models.User.username == username).first()`:
the first user row whose username is an exact (case-sensitive) match. -/
def find_by_username (db : DB) (username : String) : Option User :=
  db.users.find? (fun u => u.username == username)

/-- `get_current_user` from `main.py`: decode the bearer token, look the
subject up by username, and fail with 401 "User not found" when no such
user exists. -/
def get_current_user (token : TokenData) (now : Nat) (db : DB) :
    Except HTTPException User :=
  match decode_token token now with
  | .error e => .error e
  | .ok username =>
    match find_by_username db username with
    | none => .error { status_code := 401, detail := "User not found" }
    | some user => .ok user

/-- `register` from `main.py`: fail with 400 when the username already
exists, otherwise insert one user row holding the password hash and
return the success message.  The pair also carries the database after
the request. -/
def register (user : UserCreate) (db : DB) : Except HTTPException String × DB :=
  match find_by_username db user.username with
  | some _ => (.error { status_code := 400, detail := "Username already exists" }, db)
  | none =>
    let new_user : User :=
      { id := db.next_user_id
        username := user.username
        hashed_password := hash_password user.password }
    (.ok "User created",
      { db with users := db.users ++ [new_user], next_user_id := db.next_user_id + 1 })

/-- The `schemas.Token` response of `POST /login`. -/
structure Token where
  access_token : TokenData
  token_type : String
deriving Repr, DecidableEq

/-- `login` from `main.py`: look the user up by username; fail with 401
"Invalid credentials" when the user is missing or the password does not
verify against the stored hash; otherwise issue a bearer token for the
username. -/
def login (username password : String) (now : Nat) (db : DB) :
    Except HTTPException Token :=
  match find_by_username db username with
  | none => .error { status_code := 401, detail := "Invalid credentials" }
  | some user =>
    if verify_password password user.hashed_password then
      .ok { access_token := create_access_token user.username now
            token_type := "bearer" }
    else
      .error { status_code := 401, detail := "Invalid credentials" }

/-- `create_todo` from `main.py`:
`models.Todo(**todo.dict(), owner_id=current_user.id)` — a new row with
the body's title and description, `completed` at its column default
`false`, and the owner fixed to the authenticated caller; the row is
inserted and returned. -/
def create_todo (todo : TodoCreate) (db : DB) (current_user : User) : Todo × DB :=
  let new_todo : Todo :=
    { id := db.next_todo_id
      title := todo.title
      description := todo.description
      completed := false
      owner_id := current_user.id }
  (new_todo,
    { db with todos := db.todos ++ [new_todo], next_todo_id := db.next_todo_id + 1 })

/-- `get_todos` from `main.py`: all todo rows whose `owner_id` equals
the authenticated caller's id. -/
def get_todos (db : DB) (current_user : User) : List Todo :=
  db.todos.filter (fun t => t.owner_id == current_user.id)

/-- The joint lookup predicate of `update_todo` and `delete_todo`:
`models.Todo.id == todo_id, models.Todo.owner_id == current_user.id`. -/
def ownedBy (todo_id : Nat) (current_user : User) (t : Todo) : Bool :=
  t.id == todo_id && t.owner_id == current_user.id

/-- The field-by-field mutation block of `update_todo`: each field of
the body that is not `None` overwrites the row's field; `None` fields
leave the row untouched. -/
def applyUpdate (todo : TodoUpdate) (db_todo : Todo) : Todo :=
  let t1 := match todo.title with
    | some s => { db_todo with title := s }
    | none => db_todo
  let t2 := match todo.description with
    | some s => { t1 with description := some s }
    | none => t1
  match todo.completed with
  | some b => { t2 with completed := b }
  | none => t2

/-- Replace the first element satisfying `p` (the ORM mutates the row
returned by `.first()` in place). -/
def replaceFirst (p : Todo → Bool) (new : Todo) : List Todo → List Todo
  | [] => []
  | x :: xs => if p x then new :: xs else x :: replaceFirst p new xs

/-- `update_todo` from `main.py`: joint lookup by `(todo_id, owner_id)`;
404 "Todo not found" when the lookup misses, raised before any
mutation; otherwise the provided fields are applied to the found row
and the updated row is returned. -/
def update_todo (todo_id : Nat) (todo : TodoUpdate) (db : DB) (current_user : User) :
    Except HTTPException Todo × DB :=
  match db.todos.find? (ownedBy todo_id current_user) with
  | none => (.error { status_code := 404, detail := "Todo not found" }, db)
  | some db_todo =>
    let t := applyUpdate todo db_todo
    (.ok t, { db with todos := replaceFirst (ownedBy todo_id current_user) t db.todos })

/-- `delete_todo` from `main.py`: same joint lookup; 404 "Todo not
found" when the lookup misses, raised before any mutation; otherwise
the found row is deleted and a message returned. -/
def delete_todo (todo_id : Nat) (db : DB) (current_user : User) :
    Except HTTPException String × DB :=
  match db.todos.find? (ownedBy todo_id current_user) with
  | none => (.error { status_code := 404, detail := "Todo not found" }, db)
  | some _ =>
    (.ok "Todo deleted",
      { db with todos := db.todos.eraseP (ownedBy todo_id current_user) })

/-- `POST /todos` end to end: dependency resolution of the current user
(the authorization gate) followed by the handler body. -/
def handle_create (token : TokenData) (now : Nat) (body : TodoCreate) (db : DB) :
    Except HTTPException Todo × DB :=
  match get_current_user token now db with
  | .error e => (.error e, db)
  | .ok user =>
    let r := create_todo body db user
    (.ok r.1, r.2)

/-- `PUT /todos/{id}` end to end: authorization gate, then the handler. -/
def handle_update (token : TokenData) (now : Nat) (todo_id : Nat) (body : TodoUpdate)
    (db : DB) : Except HTTPException Todo × DB :=
  match get_current_user token now db with
  | .error e => (.error e, db)
  | .ok user => update_todo todo_id body db user

/-- `DELETE /todos/{id}` end to end: authorization gate, then the handler. -/
def handle_delete (token : TokenData) (now : Nat) (todo_id : Nat) (db : DB) :
    Except HTTPException String × DB :=
  match get_current_user token now db with
  | .error e => (.error e, db)
  | .ok user => delete_todo todo_id db user

/-! Sample data used by the witness theorems. -/

/-- A sample registered user. -/
def alice : User := { id := 1, username := "alice", hashed_password := hash_password "pw1" }

/-- A second sample registered user, distinct from `alice`. -/
def bob : User := { id := 2, username := "bob", hashed_password := hash_password "pw2" }

/-- A sample todo owned by `alice`. -/
def taskA : Todo :=
  { id := 10, title := "Buy milk", description := some "2L", completed := false, owner_id := 1 }

/-- A sample database holding `alice`, `bob` and `taskA`. -/
def dbSample : DB := { users := [alice, bob], todos := [taskA], next_user_id := 3, next_todo_id := 11 }

/-- The empty database, as after table creation. -/
def emptyDB : DB := { users := [], todos := [], next_user_id := 1, next_todo_id := 1 }

/-- A token issued to `alice` at time 0. -/
def aliceToken : TokenData := create_access_token "alice" 0

/-! Helper lemmas. -/

/-- Unfolding of the joint ownership lookup predicate. -/
lemma ownedBy_iff (tid : Nat) (user : User) (t : Todo) :
    ownedBy tid user t = true ↔ t.id = tid ∧ t.owner_id = user.id := by
  simp [ownedBy]

/-- The `title` field after the mutation block. -/
lemma applyUpdate_title (u : TodoUpdate) (t : Todo) :
    (applyUpdate u t).title = u.title.getD t.title := by
  rcases u with ⟨ti, d, c⟩
  cases ti <;> cases d <;> cases c <;> rfl

/-- The `description` field after the mutation block. -/
lemma applyUpdate_description (u : TodoUpdate) (t : Todo) :
    (applyUpdate u t).description =
      (match u.description with | some s => some s | none => t.description) := by
  rcases u with ⟨ti, d, c⟩
  cases ti <;> cases d <;> cases c <;> rfl

/-- The `completed` field after the mutation block. -/
lemma applyUpdate_completed (u : TodoUpdate) (t : Todo) :
    (applyUpdate u t).completed = u.completed.getD t.completed := by
  rcases u with ⟨ti, d, c⟩
  cases ti <;> cases d <;> cases c <;> rfl

/-- When no row matches the joint lookup, it returns `none`. -/
lemma find?_ownedBy_eq_none (db : DB) (user : User) (tid : Nat)
    (h : ∀ t ∈ db.todos, ¬(t.id = tid ∧ t.owner_id = user.id)) :
    db.todos.find? (ownedBy tid user) = none := by
  refine List.find?_eq_none.mpr (fun x hx hp => ?_)
  exact h x hx ((ownedBy_iff tid user x).mp hp)

/-! ### Claim C1 -/

/-- Claim C1: per-user isolation.  For distinct users `a` and `b` and a
task `t` owned by `a` (in a database whose task ids are key-unique),
`get_todos` for `b` never returns `t`, and `update_todo` and
`delete_todo` on `t.id` by `b` fail with 404 "Todo not found"; both
lookups filter jointly by task id and owner id. -/
theorem C1_per_user_isolation (db : DB) (a b : User) (t : Todo) (u : TodoUpdate)
    (hne : a.id ≠ b.id) (hown : t.owner_id = a.id) (hmem : t ∈ db.todos)
    (huniq : ∀ t1 ∈ db.todos, ∀ t2 ∈ db.todos, t1.id = t2.id → t1 = t2) :
    t ∉ get_todos db b
    ∧ (update_todo t.id u db b).1 =
        .error { status_code := 404, detail := "Todo not found" }
    ∧ (delete_todo t.id db b).1 =
        .error { status_code := 404, detail := "Todo not found" } := by
  have hnone : db.todos.find? (ownedBy t.id b) = none := by
    refine find?_ownedBy_eq_none db b t.id (fun x hx hp => ?_)
    have hx_eq : x = t := huniq x hx t hmem hp.1
    subst hx_eq
    exact hne (hown ▸ hp.2)
  refine ⟨?_, ?_, ?_⟩
  · intro hmemb
    have hb : t.owner_id = b.id := by
      have := (List.mem_filter.mp hmemb).2
      simpa using this
    exact hne (hown ▸ hb)
  · simp [update_todo, hnone]
  · simp [delete_todo, hnone]

/-- Witness for C1 at the sample database: `bob` cannot list, update or
delete `alice`'s task. -/
theorem C1_per_user_isolation_witness :
    taskA ∉ get_todos dbSample bob
    ∧ (update_todo taskA.id { completed := some true } dbSample bob).1 =
        .error { status_code := 404, detail := "Todo not found" }
    ∧ (delete_todo taskA.id dbSample bob).1 =
        .error { status_code := 404, detail := "Todo not found" } :=
  C1_per_user_isolation dbSample alice bob taskA { completed := some true }
    (by decide) (by decide) (by decide) (by decide)

/-! ### Claim C2 -/

/-- Claim C2: partial-update frame condition.  On a successful update of
an owned task, exactly the non-`None` fields of the body are applied and
every absent field keeps its value; `description` can never be cleared
(only replaced by a non-null value); the body with only
`completed := true` changes only the completed flag; and pydantic
validation maps an explicit `null` and an absent key to the same parsed
body, so null and absent are equivalent. -/
theorem C2_partial_update_frame (db : DB) (user : User) (tid : Nat) (u : TodoUpdate)
    (t : Todo) (hfind : db.todos.find? (ownedBy tid user) = some t) :
    (update_todo tid u db user).1 = .ok (applyUpdate u t)
    ∧ (applyUpdate u t).title = u.title.getD t.title
    ∧ (applyUpdate u t).description =
        (match u.description with | some s => some s | none => t.description)
    ∧ (applyUpdate u t).completed = u.completed.getD t.completed
    ∧ ((applyUpdate u t).description = none → t.description = none)
    ∧ applyUpdate { completed := some true } t = { t with completed := true }
    ∧ (∀ b : TodoUpdateBody, parseTodoUpdate b.dropNulls = parseTodoUpdate b) := by
  refine ⟨by simp [update_todo, hfind], applyUpdate_title u t,
    applyUpdate_description u t, applyUpdate_completed u t, ?_, rfl, ?_⟩
  · intro hnone
    rw [applyUpdate_description u t] at hnone
    cases hd : u.description with
    | none => rw [hd] at hnone; exact hnone
    | some s => rw [hd] at hnone; exact absurd hnone (by simp)
  · intro b
    rcases b with ⟨ti, d, c⟩
    cases ti <;> cases d <;> cases c <;> rfl

/-- Witness for C2: updating `taskA` with only `completed := true`
succeeds and returns the row with only the completed flag changed. -/
theorem C2_partial_update_frame_witness :
    (update_todo 10 { completed := some true } dbSample alice).1 =
      .ok (applyUpdate { completed := some true } taskA)
    ∧ applyUpdate { completed := some true } taskA = { taskA with completed := true } :=
  ⟨(C2_partial_update_frame dbSample alice 10 { completed := some true } taskA rfl).1,
    (C2_partial_update_frame dbSample alice 10 { completed := some true } taskA rfl).2.2.2.2.2.1⟩

/-! ### Claim C3 -/

/-- Counterexample to claim C3 as stated: a create request whose title
is the empty string is not rejected by boundary validation —
`schemas.TodoCreate` declares `title: str` with no non-emptiness
constraint, so the empty string validates, and `create_todo` then
inserts a task whose title is the empty string. -/
theorem C3_empty_title_accepted_counterexample :
    parseTodoCreate (JsonField.val "") JsonField.absent =
      .ok { title := "", description := none }
    ∧ ((create_todo { title := "", description := none } dbSample alice).1).title = ""
    ∧ (create_todo { title := "", description := none } dbSample alice).1 ∈
        ((create_todo { title := "", description := none } dbSample alice).2).todos :=
  ⟨rfl, rfl, by decide⟩

/-- Claim C3 (amended): the title field is required — a body with the
key absent, or set to `null`, is rejected by boundary validation and no
task is created — but any string value passes, including the empty
string, so a created task's title equals the request's title and may be
empty. -/
theorem C3_title_required_any_string_accepted (t : String) (d : JsonField String)
    (db : DB) (user : User) :
    parseTodoCreate JsonField.absent d = .error "Field required"
    ∧ parseTodoCreate JsonField.null d = .error "Input should be a valid string"
    ∧ parseTodoCreate (JsonField.val t) d = .ok { title := t, description := d.toOption }
    ∧ ((create_todo { title := t, description := d.toOption } db user).1).title = t :=
  ⟨rfl, rfl, rfl, rfl⟩

/-! ### Claim C4 -/

/-- Claim C4: duplicate registration fails.  When a user with the
requested username (case-sensitive exact match) already exists,
`register` fails with 400 "Username already exists" and the database is
unchanged; in particular after any successful registration, registering
the same username again fails the same way and leaves the store as it
was. -/
theorem C4_duplicate_registration (db : DB) (user : UserCreate) (p2 : String) :
    ((∃ u ∈ db.users, u.username = user.username) →
      register user db =
        (.error { status_code := 400, detail := "Username already exists" }, db))
    ∧ (∀ m db1, register user db = (Except.ok m, db1) →
        register { username := user.username, password := p2 } db1 =
          (.error { status_code := 400, detail := "Username already exists" }, db1)) := by
  constructor
  · intro hex
    have hsome : (find_by_username db user.username).isSome := by
      refine List.find?_isSome.mpr ?_
      obtain ⟨u, hu, hname⟩ := hex
      exact ⟨u, hu, by simp [hname]⟩
    cases hfind : find_by_username db user.username with
    | none => rw [hfind] at hsome; simp at hsome
    | some w => simp [register, hfind]
  · intro m db1 hreg
    cases hfind : find_by_username db user.username with
    | some w => simp [register, hfind] at hreg
    | none =>
      have hdb1 : db1 =
          { db with
            users := db.users ++
              [{ id := db.next_user_id, username := user.username,
                 hashed_password := hash_password user.password }]
            next_user_id := db.next_user_id + 1 } := by
        simp [register, hfind] at hreg
        exact hreg.2.symm
      have hfind1 : find_by_username db1 user.username =
          some { id := db.next_user_id, username := user.username,
                 hashed_password := hash_password user.password } := by
        rw [hdb1]
        show List.find? _ (db.users ++ [_]) = _
        rw [List.find?_append]
        have hbase : List.find? (fun x => x.username == user.username) db.users = none := hfind
        rw [hbase]
        simp
      simp [register, hfind1]

/-- Witness for C4: registering "alice" twice on the empty database —
the second call fails with 400 and leaves the store unchanged. -/
theorem C4_duplicate_registration_witness :
    register { username := "alice", password := "pw2" }
        (register { username := "alice", password := "pw1" } emptyDB).2 =
      (.error { status_code := 400, detail := "Username already exists" },
        (register { username := "alice", password := "pw1" } emptyDB).2) :=
  (C4_duplicate_registration emptyDB { username := "alice", password := "pw1" } "pw2").2
    "User created" (register { username := "alice", password := "pw1" } emptyDB).2 rfl

/-! ### Claim C5 -/

/-- Claim C5: register/login round-trip.  After a successful
`register(u, p)`, `login(u, p)` succeeds and the returned token has
`token_type = "bearer"`; a `login(u, p2)` whose password does not verify
against the stored hash fails with 401 "Invalid credentials"; and a
login for an unknown username fails with the same 401. -/
theorem C5_register_login_roundtrip (db : DB) (u p p2 v : String) (now : Nat) :
    (∀ m db1, register { username := u, password := p } db = (Except.ok m, db1) →
      (∃ tok, login u p now db1 = .ok tok ∧ tok.token_type = "bearer")
      ∧ (∀ w, find_by_username db1 u = some w →
          verify_password p2 w.hashed_password = false →
          login u p2 now db1 =
            .error { status_code := 401, detail := "Invalid credentials" }))
    ∧ (find_by_username db v = none →
        login v p now db =
          .error { status_code := 401, detail := "Invalid credentials" }) := by
  constructor
  · intro m db1 hreg
    cases hfind : find_by_username db u with
    | some w => simp [register, hfind] at hreg
    | none =>
      have hdb1 : db1 =
          { db with
            users := db.users ++
              [{ id := db.next_user_id, username := u,
                 hashed_password := hash_password p }]
            next_user_id := db.next_user_id + 1 } := by
        simp [register, hfind] at hreg
        exact hreg.2.symm
      have hfind1 : find_by_username db1 u =
          some { id := db.next_user_id, username := u,
                 hashed_password := hash_password p } := by
        rw [hdb1]
        show List.find? _ (db.users ++ [_]) = _
        rw [List.find?_append]
        have hbase : List.find? (fun x => x.username == u) db.users = none := hfind
        rw [hbase]
        simp
      constructor
      · refine ⟨{ access_token := create_access_token u now, token_type := "bearer" }, ?_, rfl⟩
        simp [login, hfind1, verify_password]
      · intro w hw hv
        rw [hfind1] at hw
        cases hw
        simp [login, hfind1, hv]
  · intro hnone
    simp [login, hnone]

/-- Witness for C5: on the database obtained by registering "alice"
with "pw1", login with "pw1" succeeds with a bearer token and login
with "wrong" fails with 401. -/
theorem C5_register_login_roundtrip_witness :
    (∃ tok, login "alice" "pw1" 100
        (register { username := "alice", password := "pw1" } emptyDB).2 = .ok tok
      ∧ tok.token_type = "bearer")
    ∧ login "alice" "wrong" 100
        (register { username := "alice", password := "pw1" } emptyDB).2 =
      .error { status_code := 401, detail := "Invalid credentials" } := by
  have h := (C5_register_login_roundtrip emptyDB "alice" "pw1" "wrong" "nobody" 100).1
    "User created" (register { username := "alice", password := "pw1" } emptyDB).2 rfl
  exact ⟨h.1, h.2 { id := 1, username := "alice", hashed_password := hash_password "pw1" }
    rfl (by decide)⟩

/-! ### Claim C6 -/

/-- Claim C6: owner assignment.  For every request body, the task built
by `create_todo` carries `owner_id = current_user.id` — the owner comes
from the authenticated caller resolved by the authorization gate, never
from the request body (the `TodoCreate` schema has no owner field). -/
theorem C6_owner_is_authenticated_caller (todo : TodoCreate) (db : DB)
    (current_user : User) :
    ((create_todo todo db current_user).1).owner_id = current_user.id
    ∧ (∀ tok now t db2, handle_create tok now todo db = (Except.ok t, db2) →
        ∃ usr, get_current_user tok now db = .ok usr ∧ t.owner_id = usr.id) := by
  refine ⟨rfl, ?_⟩
  intro tok now t db2 h
  cases hauth : get_current_user tok now db with
  | error e => simp [handle_create, hauth] at h
  | ok usr =>
    refine ⟨usr, rfl, ?_⟩
    simp [handle_create, hauth] at h
    rw [← h.1]
    rfl

/-- Witness for C6: creating a task through the route with `alice`'s
token assigns `alice`'s id as owner. -/
theorem C6_owner_is_authenticated_caller_witness :
    ∃ usr, get_current_user aliceToken 0 dbSample = .ok usr ∧
      Todo.owner_id
        { id := 11, title := "Buy milk", description := none,
          completed := false, owner_id := 1 } = usr.id :=
  (C6_owner_is_authenticated_caller { title := "Buy milk", description := none }
      dbSample alice).2
    aliceToken 0
    { id := 11, title := "Buy milk", description := none,
      completed := false, owner_id := 1 }
    (handle_create aliceToken 0 { title := "Buy milk", description := none } dbSample).2
    rfl

/-! ### Claim C7 -/

/-- Claim C7: authentication failure conditions.  `get_current_user`
fails with the 401 error of token verification whenever `decode_token`
fails (invalid signature, malformed, or expiry passed); it fails with
401 "User not found" when the token decodes but its subject no longer
resolves to a user; and a token whose expiry is in the past always
fails authentication with a 401. -/
theorem C7_authentication_failures (tok : TokenData) (now : Nat) (db : DB) :
    (∀ e, decode_token tok now = .error e →
      get_current_user tok now db = .error e ∧ e.status_code = 401)
    ∧ (∀ s, decode_token tok now = .ok s → find_by_username db s = none →
        get_current_user tok now db =
          .error { status_code := 401, detail := "User not found" })
    ∧ (tok.exp < now →
        ∃ e, get_current_user tok now db = .error e ∧ e.status_code = 401) := by
  refine ⟨?_, ?_, ?_⟩
  · intro e he
    refine ⟨by simp [get_current_user, he], ?_⟩
    by_cases hsig : tok.sig ≠ signClaims tok.sub tok.exp
    · simp [decode_token, hsig] at he
      rw [← he]
    · by_cases hexp : tok.exp < now
      · simp [decode_token, hsig, hexp] at he
        rw [← he]
      · simp [decode_token, hsig, hexp] at he
  · intro s hs hnone
    simp [get_current_user, hs, hnone]
  · intro hexp
    by_cases hsig : tok.sig ≠ signClaims tok.sub tok.exp
    · refine ⟨{ status_code := 401, detail := "Invalid token" }, ?_, rfl⟩
      have : decode_token tok now = .error { status_code := 401, detail := "Invalid token" } := by
        simp [decode_token, hsig]
      simp [get_current_user, this]
    · refine ⟨{ status_code := 401, detail := "Token expired" }, ?_, rfl⟩
      have : decode_token tok now = .error { status_code := 401, detail := "Token expired" } := by
        simp [decode_token, hsig, hexp]
      simp [get_current_user, this]

/-- Witness for C7: a correctly signed token for `alice` whose expiry
(time 0) is in the past at time 5 fails authentication with a 401. -/
theorem C7_authentication_failures_witness :
    ∃ e, get_current_user { sub := "alice", exp := 0, sig := signClaims "alice" 0 } 5
        dbSample = .error e ∧ e.status_code = 401 :=
  (C7_authentication_failures { sub := "alice", exp := 0, sig := signClaims "alice" 0 }
      5 dbSample).2.2 (by decide)

/-! ### Claim C8 -/

/-- After erasing the first match of a predicate that holds for at most
one element of the list, no match remains. -/
lemma find?_eraseP_eq_none {α : Type} (p : α → Bool) (l : List α)
    (h : l.countP p ≤ 1) : (l.eraseP p).find? p = none := by
  induction l with
  | nil => rfl
  | cons a l ih =>
    by_cases hpa : p a = true
    · rw [List.eraseP_cons_of_pos hpa]
      rw [List.countP_cons_of_pos _ _ hpa] at h
      have h0 : l.countP p = 0 := by omega
      exact List.find?_eq_none.mpr (List.countP_eq_zero.mp h0)
    · rw [List.eraseP_cons_of_neg hpa, List.find?_cons_of_neg _ hpa]
      rw [List.countP_cons_of_neg _ _ hpa] at h
      exact ih h

/-- With key-unique task ids, at most one row matches the joint
ownership lookup. -/
lemma countP_ownedBy_le_one (l : List Todo) (tid : Nat) (user : User)
    (hnd : (l.map Todo.id).Nodup) : l.countP (ownedBy tid user) ≤ 1 := by
  have h1 : l.countP (ownedBy tid user) ≤ l.countP (fun t => t.id == tid) :=
    List.countP_mono_left (fun t _ ht => by
      simp [ownedBy] at ht
      simp [ht.1])
  have h2 : l.countP (fun t => t.id == tid) = (l.map Todo.id).count tid := by
    rw [List.count_eq_countP, List.countP_map]
    rfl
  have h3 : (l.map Todo.id).count tid ≤ 1 := List.nodup_iff_count_le_one.mp hnd tid
  omega

/-- Claim C8: NotFound semantics and delete idempotence.  When no task
with the given id owned by the caller exists — whether the id is absent
altogether or the task belongs to someone else — `update_todo` and
`delete_todo` both fail with the same 404 "Todo not found" and leave
the database unchanged; and (for key-unique task ids) deleting an id a
second time after a successful delete returns that 404, not success. -/
theorem C8_notfound_and_delete_idempotence (db : DB) (user : User) (tid : Nat)
    (u : TodoUpdate) :
    ((∀ t ∈ db.todos, ¬(t.id = tid ∧ t.owner_id = user.id)) →
      update_todo tid u db user =
        (.error { status_code := 404, detail := "Todo not found" }, db)
      ∧ delete_todo tid db user =
        (.error { status_code := 404, detail := "Todo not found" }, db))
    ∧ ((db.todos.map Todo.id).Nodup →
        ∀ m db1, delete_todo tid db user = (Except.ok m, db1) →
          delete_todo tid db1 user =
            (.error { status_code := 404, detail := "Todo not found" }, db1)) := by
  constructor
  · intro habs
    have hnone : db.todos.find? (ownedBy tid user) = none :=
      find?_ownedBy_eq_none db user tid habs
    exact ⟨by simp [update_todo, hnone], by simp [delete_todo, hnone]⟩
  · intro hnd m db1 hdel
    cases hfind : db.todos.find? (ownedBy tid user) with
    | none => simp [delete_todo, hfind] at hdel
    | some w =>
      have hdb1 : db1 = { db with todos := db.todos.eraseP (ownedBy tid user) } := by
        simp [delete_todo, hfind] at hdel
        exact hdel.2.symm
      have hnone1 : db1.todos.find? (ownedBy tid user) = none := by
        rw [hdb1]
        exact find?_eraseP_eq_none (ownedBy tid user) db.todos
          (countP_ownedBy_le_one db.todos tid user hnd)
      simp [delete_todo, hnone1]

/-- Witness for C8: deleting `taskA` from the sample database and then
deleting the same id again — the second delete fails with 404. -/
theorem C8_notfound_and_delete_idempotence_witness :
    delete_todo 10 (delete_todo 10 dbSample alice).2 alice =
      (.error { status_code := 404, detail := "Todo not found" },
        (delete_todo 10 dbSample alice).2) :=
  (C8_notfound_and_delete_idempotence dbSample alice 10 {}).2 (by decide)
    "Todo deleted" (delete_todo 10 dbSample alice).2 rfl

/-! ### Claim C9 -/

/-- The modelled hash is never the plaintext itself. -/
lemma hash_password_ne_plaintext (p : String) : hash_password p ≠ p := by
  intro he
  have hlen := congrArg String.length he
  rw [hash_password, String.length_append] at hlen
  have h7 : ("bcrypt$" : String).length = 7 := rfl
  omega

/-- Claim C9: registration stores only the password hash.  A successful
`register` appends exactly one user row; that row's stored password
field is `hash_password` of the request's password and is never the
plaintext itself, and the user count grows by exactly one. -/
theorem C9_register_stores_only_hash (db : DB) (user : UserCreate) (m : String)
    (db1 : DB) (hreg : register user db = (Except.ok m, db1)) :
    ∃ newu : User,
      db1.users = db.users ++ [newu]
      ∧ newu.username = user.username
      ∧ newu.hashed_password = hash_password user.password
      ∧ newu.hashed_password ≠ user.password
      ∧ db1.users.length = db.users.length + 1 := by
  cases hfind : find_by_username db user.username with
  | some w => simp [register, hfind] at hreg
  | none =>
    refine ⟨{ id := db.next_user_id, username := user.username,
              hashed_password := hash_password user.password }, ?_, rfl, rfl,
      hash_password_ne_plaintext user.password, ?_⟩
    · simp [register, hfind] at hreg
      rw [← hreg.2]
    · simp [register, hfind] at hreg
      rw [← hreg.2]
      simp

/-- Witness for C9: registering "alice" on the empty database inserts
one row holding the hash of "pw1". -/
theorem C9_register_stores_only_hash_witness :
    ∃ newu : User,
      ((register { username := "alice", password := "pw1" } emptyDB).2).users =
        emptyDB.users ++ [newu]
      ∧ newu.username = "alice"
      ∧ newu.hashed_password = hash_password "pw1"
      ∧ newu.hashed_password ≠ "pw1"
      ∧ ((register { username := "alice", password := "pw1" } emptyDB).2).users.length =
          emptyDB.users.length + 1 :=
  C9_register_stores_only_hash emptyDB { username := "alice", password := "pw1" }
    "User created" (register { username := "alice", password := "pw1" } emptyDB).2 rfl

/-! ### Claim C10 -/

/-- Claim C10: atomicity on failure.  A 404 from `update_todo` or
`delete_todo` leaves the database exactly as it was (the error is
raised before any mutation), and a request that fails authentication
returns the 401 of the authorization gate with the database unchanged
for create, update and delete alike. -/
theorem C10_failure_atomicity (db db1 : DB) (user : User) (tid : Nat)
    (u : TodoUpdate) (tok : TokenData) (now : Nat) (body : TodoCreate)
    (e : HTTPException) :
    (update_todo tid u db user = (.error e, db1) → db1 = db)
    ∧ (delete_todo tid db user = (.error e, db1) → db1 = db)
    ∧ (get_current_user tok now db = .error e →
        handle_create tok now body db = (.error e, db)
        ∧ handle_update tok now tid u db = (.error e, db)
        ∧ handle_delete tok now tid db = (.error e, db)) := by
  refine ⟨?_, ?_, ?_⟩
  · intro h
    cases hfind : db.todos.find? (ownedBy tid user) with
    | none => simp [update_todo, hfind] at h; exact h.2.symm
    | some w => simp [update_todo, hfind] at h
  · intro h
    cases hfind : db.todos.find? (ownedBy tid user) with
    | none => simp [delete_todo, hfind] at h; exact h.2.symm
    | some w => simp [delete_todo, hfind] at h
  · intro hauth
    exact ⟨by simp [handle_create, hauth], by simp [handle_update, hauth],
      by simp [handle_delete, hauth]⟩

/-- Witness for C10: an expired token for `alice` makes the update
route return its 401 with the sample database untouched. -/
theorem C10_failure_atomicity_witness :
    handle_update { sub := "alice", exp := 0, sig := signClaims "alice" 0 } 5 10 {}
        dbSample =
      (.error { status_code := 401, detail := "Token expired" }, dbSample) :=
  ((C10_failure_atomicity dbSample dbSample alice 10 {}
      { sub := "alice", exp := 0, sig := signClaims "alice" 0 } 5
      { title := "x", description := none }
      { status_code := 401, detail := "Token expired" }).2.2 rfl).2.1

end TaskTracker
